import Mathlib

/-!
Shallow embedding of `src/plotting.py` (waveform plotting module of the
spike-sorting project) together with a faithful model of the parts of the
numpy legacy random API that `plot_unit_waveform` uses
(`np.random.seed` / `np.random.choice`, i.e. the MT19937 bit generator and
the masked-rejection bounded-integer sampler of `numpy.random.RandomState`).

The external collaborators (the `preprocessing` module and the recording /
table objects) are kept abstract: they enter as structures of functions,
exactly the data the plotting code reads from them.
-/

set_option maxRecDepth 400000

namespace Plotting

/-! ### MT19937, the bit generator behind numpy's legacy `RandomState`.

The 624-word state is packed into a single natural number, word `i`
occupying bits `[32*i, 32*i + 32)`.  All arithmetic is `Nat` with explicit
reduction modulo `2^32`, mirroring the C `uint32_t` operations. -/

/-- Truncation to 32 bits (`uint32_t` arithmetic). -/
def u32 (x : Nat) : Nat := x % 4294967296

/-- `RK_STATE_LEN`: number of 32-bit words in the MT19937 state. -/
def mtLen : Nat := 624

/-- Read word `i` of a packed state. -/
def mtGet (st i : Nat) : Nat := (st >>> (32 * i)) % 4294967296

/-- Overwrite word `i` of a packed state with `v`. -/
def mtSet (st i v : Nat) : Nat := st - (mtGet st i <<< (32 * i)) + (v <<< (32 * i))

/-- One iteration of the seeding loop at position `i`: store the current
word and advance it by `seed = 1812433253 * (seed ^ (seed >> 30)) + i + 1`. -/
def mtInitStep (p : Nat × Nat) (i : Nat) : Nat × Nat :=
  (p.1 + (u32 p.2 <<< (32 * i)), u32 (1812433253 * (p.2 ^^^ (p.2 >>> 30)) + i + 1))

/-- Run `fuel` iterations of the seeding loop starting at position `i`. -/
def mtInitFrom : Nat → Nat → Nat × Nat → Nat × Nat
  | _, 0, p => p
  | i, f + 1, p => mtInitFrom (i + 1) f (mtInitStep p i)

/-- `mt19937_seed` (numpy's `rk_seed`): the classic `init_genrand` loop
`key[pos] = seed; seed = 1812433253 * (seed ^ (seed >> 30)) + pos + 1`. -/
def mtInitKey (seed : Nat) : Nat := (mtInitFrom 0 mtLen (0, u32 seed)).1

/-- One in-place update of the MT19937 twist at position `i`. -/
def mtTwistStep (st i : Nat) : Nat :=
  let y := mtGet st i / 2147483648 * 2147483648 + mtGet st ((i + 1) % mtLen) % 2147483648
  let v := mtGet st ((i + 397) % mtLen) ^^^ (y >>> 1) ^^^ (if y % 2 = 1 then 2567483615 else 0)
  mtSet st i v

/-- Run `fuel` in-place twist updates starting at position `i`. -/
def mtTwistFrom : Nat → Nat → Nat → Nat
  | _, 0, st => st
  | i, f + 1, st => mtTwistFrom (i + 1) f (mtTwistStep st i)

/-- The full MT19937 twist (state regeneration), performed in place. -/
def mtTwist (st : Nat) : Nat := mtTwistFrom 0 mtLen st

/-- The MT19937 output tempering. -/
def mtTemper (x : Nat) : Nat :=
  let y := x ^^^ (x >>> 11)
  let y := y ^^^ ((y <<< 7) &&& 2636928640)
  let y := y ^^^ ((y <<< 15) &&& 4022730752)
  y ^^^ (y >>> 18)

/-- State of the generator: packed key plus position (`state->pos`). -/
structure MTState where
  key : Nat
  pos : Nat
  deriving DecidableEq, Repr

/-- `np.random.seed(seed)` for a scalar seed below `2^32`: reinitialise the
key with `mtInitKey` and force a twist before the first output. -/
def MTState.seeded (seed : Nat) : MTState := ⟨mtInitKey seed, mtLen⟩

/-- `rk_random`: produce one tempered 32-bit output, twisting when the
position reaches the end of the state. -/
def mtNext32 (g : MTState) : Nat × MTState :=
  let g := if g.pos = mtLen then MTState.mk (mtTwist g.key) 0 else g
  (mtTemper (mtGet g.key g.pos), ⟨g.key, g.pos + 1⟩)

/-! ### numpy's legacy bounded-integer sampler.

`RandomState.randint(0, pop, size=cnt)` (which `np.random.choice(a, cnt)`
calls with `pop = len(a)`) draws, for a range that fits in 32 bits, one
32-bit word per attempt, masks it down to the smallest all-ones mask
covering `rng = pop - 1`, and rejects values above `rng`.  A range of a
single value consumes no randomness at all. -/

/-- `_gen_mask`: smallest `2^k - 1` that is `≥ rng`. -/
def genMask (rng : Nat) : Nat :=
  let m := rng ||| (rng >>> 1)
  let m := m ||| (m >>> 2)
  let m := m ||| (m >>> 4)
  let m := m ||| (m >>> 8)
  let m := m ||| (m >>> 16)
  m ||| (m >>> 32)

/-- One masked-rejection draw (`buffered_bounded_masked_uint32`); `fuel`
bounds the rejection loop, `none` models non-termination never observed in
practice. -/
def drawOne (fuel rng mask : Nat) (g : MTState) : Option (Nat × MTState) :=
  match fuel with
  | 0 => none
  | f + 1 =>
    let p := mtNext32 g
    let v := p.1 &&& mask
    if v ≤ rng then some (v, p.2) else drawOne f rng mask p.2

/-- Rejection-loop fuel: far beyond anything the concrete runs need. -/
def drawFuel : Nat := 65536

/-- Fill `cnt` bounded draws in C order. -/
def drawMany (cnt rng mask : Nat) (g : MTState) : Option (List Nat × MTState) :=
  match cnt with
  | 0 => some ([], g)
  | c + 1 =>
    match drawOne drawFuel rng mask g with
    | none => none
    | some (v, g1) =>
      match drawMany c rng mask g1 with
      | none => none
      | some (l, g2) => some (v :: l, g2)

/-- `RandomState.randint(0, pop, size=cnt)`: error on an empty range,
constant fill (no randomness consumed) when the range has one value,
masked rejection otherwise. -/
def randintList (cnt pop : Nat) (g : MTState) : Option (List Nat × MTState) :=
  if pop = 0 then none
  else if pop = 1 then some (List.replicate cnt 0, g)
  else drawMany cnt (pop - 1) (genMask (pop - 1)) g

/-- `np.random.choice(pop, cnt)` (replace=True, uniform): sample `cnt`
indices below `len(pop)` and take the corresponding elements. -/
def npChoice (pop : List Int) (cnt : Nat) (g : MTState) :
    Option (List Int × MTState) :=
  if pop.length = 0 then none
  else
    match randintList cnt pop.length g with
    | none => none
    | some (idx, g1) => some (idx.map (fun i => pop.getD i 0), g1)

/-! ### Frame selection of `plot_unit_waveform` (lines 94-102). -/

/-- The frame-selection step of `plot_unit_waveform`: keep every frame when
`all_waveforms` is set or fewer frames than `num_waveforms` exist;
otherwise reseed the global generator with `seed` and draw `num_waveforms`
frames via `np.random.choice`.  The ambient generator state `g` is
threaded explicitly; `none` in the first component models an exception. -/
def selectFrames (all_waveforms : Bool) (num_waveforms seed : Nat)
    (sample_frames : List Int) (g : MTState) : Option (List Int) × MTState :=
  if all_waveforms then (some sample_frames, g)
  else if sample_frames.length < num_waveforms then (some sample_frames, g)
  else
    let g0 := MTState.seeded seed
    match npChoice sample_frames num_waveforms g0 with
    | some (picked, g1) => (some picked, g1)
    | none => (none, g0)

/-! ### Abstract external collaborators (spec section 6).

`get_trace_snippet` returns a 2D time × channel array, `get_trace_reshaped`
a 3D time × channel × variant array, `get_unit_frames` a sequence of frame
indices; all are out-of-scope collaborators, so they enter the model as
opaque functions carried by the argument objects. -/

/-- A rectangular 2D numeric array (time × channel). -/
structure Mat where
  nTime : Nat
  nChan : Nat
  entry : Nat → Nat → Int

/-- A rectangular 3D numeric array (time × channel × variant). -/
structure Arr3 where
  d0 : Nat
  d1 : Nat
  d2 : Nat
  entry : Nat → Nat → Nat → Int

/-- The recording handle: what the two preprocessing fetchers return on it. -/
structure Recording where
  snippet : Int → Mat
  reshaped : Int → Arr3

/-- `preprocessing.get_trace_snippet(recording, sample_time)`. -/
def get_trace_snippet (r : Recording) (sample_time : Int) : Mat := r.snippet sample_time

/-- `preprocessing.get_trace_reshaped(recording, sample_frame)`. -/
def get_trace_reshaped (r : Recording) (sample_frame : Int) : Arr3 := r.reshaped sample_frame

/-- The spike table, abstracted to the one query made of it. -/
structure Spikes where
  unitFrames : Int → List Int

/-- `preprocessing.get_unit_frames(spikes, unit_id)`. -/
def get_unit_frames (s : Spikes) (unit_id : Int) : List Int := s.unitFrames unit_id

/-- A Python value that may sit in a table cell passed on as `channels`:
either a bare scalar number or a sized sequence of channel numbers. -/
inductive PyVal where
  | scalar : Int → PyVal
  | seq : List Int → PyVal
  deriving DecidableEq, Repr

/-- Python's `len`: defined on sequences, a `TypeError` on a bare scalar. -/
def pyLen : PyVal → Option Nat
  | .scalar _ => none
  | .seq l => some l.length

/-- The underlying entries of a channels value (empty for a scalar; that
case is unreachable past `pyLen`). -/
def pyEntries : PyVal → List Int
  | .scalar _ => []
  | .seq l => l

/-- Column `c` of a matrix: the per-time amplitude trace of one channel. -/
def matCol (m : Mat) (c : Nat) : List Int := (List.range m.nTime).map fun t => m.entry t c

/-- `trace_snippet[:, c]` with numpy index semantics: direct for
`0 ≤ c < nChan`, wrap-around for negative `c`, `IndexError` otherwise. -/
def pyCol (m : Mat) (c : Int) : Option (List Int) :=
  if 0 ≤ c ∧ c < (m.nChan : Int) then some (matCol m c.toNat)
  else if -(m.nChan : Int) ≤ c ∧ c < 0 then some (matCol m (c + m.nChan).toNat)
  else none

/-- Map a fallible extraction over a list, failing as soon as one entry
fails (the loop raises at the first bad element). -/
def optMap : List α → (α → Option β) → Option (List β)
  | [], _ => some []
  | a :: l, f =>
    match f a with
    | none => none
    | some b =>
      match optMap l f with
      | none => none
      | some bs => some (b :: bs)

/-! ### `plot_trace_waveform` (lines 7-44). -/

/-- Search upward from `k` for the least square at or above `n`; the fuel
is enough because `ceil(sqrt(n)) ≤ n`. -/
def ceilSqrtFrom (n : Nat) : Nat → Nat → Nat
  | k, 0 => k
  | k, f + 1 => if n ≤ k * k then k else ceilSqrtFrom n (k + 1) f

/-- `int(np.ceil(np.sqrt(n)))` for a nonnegative integer `n` (exact for
every size a figure can have): the least `k` with `k * k ≥ n`. -/
def ceilSqrt (n : Nat) : Nat := ceilSqrtFrom n 0 n

/-- `np.ceil(n / c).astype(int)` for integers with `c > 0`. -/
def ceilDiv (n c : Nat) : Nat := (n + c - 1) / c

/-- The figure `plot_trace_waveform` displays: a `rows × cols` grid whose
first `panels.length` subplots hold one channel trace each and whose last
`hidden` subplots are switched off. -/
structure GridFigure where
  rows : Nat
  cols : Nat
  panels : List (List Int)
  hidden : Nat
  deriving DecidableEq, Repr

/-- `plot_trace_waveform(recording, sample_time, channels)`: fetch the
snippet, take `len(channels)` (TypeError on a scalar), compute the
near-square grid (`ZeroDivisionError` when `cols = 0`, i.e. no channels),
then plot one subplot per channel and disable the spare subplots.
The `Except` value models the exception propagating before any figure is
shown. -/
def plot_trace_waveform (rec : Recording) (sample_time : Int) (channels : PyVal) :
    Except String GridFigure :=
  let trace_snippet := get_trace_snippet rec sample_time
  match pyLen channels with
  | none => .error "TypeError: object of type 'int' has no len()"
  | some num_channels =>
    let cols := ceilSqrt num_channels
    if cols = 0 then .error "ZeroDivisionError: division by zero"
    else
      let rows := ceilDiv num_channels cols
      match optMap (pyEntries channels) (fun channel => pyCol trace_snippet channel) with
      | none => .error "IndexError: index out of bounds"
      | some panels => .ok ⟨rows, cols, panels, rows * cols - num_channels⟩

/-! ### `plot_trace_image` (lines 47-75). -/

/-- One heatmap panel: the 2D image it shows and its color-scale bounds. -/
structure ImgPanel where
  image : List (List Int)
  vmin : Int
  vmax : Int
  deriving DecidableEq, Repr

/-- The figure `plot_trace_image` displays. -/
structure ImageFigure where
  panels : List ImgPanel
  deriving DecidableEq, Repr

/-- `np.transpose(a, (1, 0, 2))`. -/
def transpose102 (a : Arr3) : Arr3 := ⟨a.d1, a.d0, a.d2, fun i j k => a.entry j i k⟩

/-- All entries of a 3D array, flattened in C order. -/
def arr3Elems (a : Arr3) : List Int :=
  (List.range a.d0).flatMap fun i =>
    (List.range a.d1).flatMap fun j =>
      (List.range a.d2).map fun k => a.entry i j k

/-- `a.min()` of numpy: `none` models the `ValueError` on an empty array. -/
def listMin : List Int → Option Int
  | [] => none
  | x :: xs => some (match listMin xs with | none => x | some m => min x m)

/-- `a.max()` of numpy, dually. -/
def listMax : List Int → Option Int
  | [] => none
  | x :: xs => some (match listMax xs with | none => x | some m => max x m)

/-- `trace_transposed[:, :, k]`: the 2D channel × time image of variant `k`. -/
def arr3Slice (a : Arr3) (k : Nat) : List (List Int) :=
  (List.range a.d0).map fun i => (List.range a.d1).map fun j => a.entry i j k

/-- `plot_trace_image(recording, sample_frame)`: fetch the reshaped trace,
transpose to channel × time × variant, compute the shared `vmin`/`vmax`
once over the whole transposed array, then `imshow` each variant with
those bounds.  (The `plt.subplot(1, 2, i+1)` call is backend layout into a
hardcoded two-column row; the backend itself is out of scope.) -/
def plot_trace_image (rec : Recording) (sample_frame : Int) : Except String ImageFigure :=
  let trace_reshaped := get_trace_reshaped rec sample_frame
  let trace_transposed := transpose102 trace_reshaped
  match listMin (arr3Elems trace_transposed), listMax (arr3Elems trace_transposed) with
  | some vmin, some vmax =>
    .ok ⟨(List.range trace_reshaped.d2).map fun i => ⟨arr3Slice trace_transposed i, vmin, vmax⟩⟩
  | _, _ => .error "ValueError: zero-size array to reduction operation minimum"

/-! ### `plot_unit_waveform` (lines 78-114), with the process-wide state
it can touch made explicit. -/

/-- A displayed figure of the unit-waveform plot: the overlaid lines, one
per plotted frame. -/
inductive Figure where
  | unitOverlay : List (List Int) → Figure
  deriving DecidableEq

/-- The process-wide shared state visible to the module: the global numpy
random-generator state, the plotting backend's figure state, and an opaque
remainder `env` standing for every other resource of the process. -/
structure World (ε : Type) where
  rng : MTState
  figures : List Figure
  env : ε

/-- `plot_unit_waveform(recording, spikes, unit_id, channel_id,
all_waveforms, num_waveforms, seed)`: select frames (possibly reseeding
and drawing from the global generator), then fetch one snippet per
selected frame and overlay that frame's `channel_id` column on one new
figure. -/
def plot_unit_waveform {ε : Type} (rec : Recording) (spikes : Spikes)
    (unit_id channel_id : Int) (all_waveforms : Bool) (num_waveforms seed : Nat)
    (w : World ε) : Except String (World ε) :=
  let sample_frames := get_unit_frames spikes unit_id
  match selectFrames all_waveforms num_waveforms seed sample_frames w.rng with
  | (none, _) => .error "ValueError: random choice failed"
  | (some frames_to_plot, g1) =>
    match optMap frames_to_plot
        (fun frame => pyCol (get_trace_snippet rec frame) channel_id) with
    | none => .error "IndexError: index out of bounds"
    | some lines => .ok ⟨g1, w.figures ++ [Figure.unitOverlay lines], w.env⟩

/-! ### `plot_peak_waveform` (lines 117-133). -/

/-- The peaks/noise table, abstracted to the two columns the code reads;
a `peak_channel` cell may hold a scalar or a sequence. -/
structure PeaksTable where
  peak_frame : Int → Int
  peak_channel : Int → PyVal

/-- Python's `range(a, b)` over integers, as the ascending list it yields. -/
def pyRange (a b : Int) : List Int := (List.range (b - a).toNat).map fun (i : Nat) => a + (i : Int)

/-- The row loop of `plot_peak_waveform`: one grid plot per row index, a
failure aborting the remaining rows. -/
def runPeakRows (rec : Recording) (tbl : PeaksTable) :
    List Int → Except String (List GridFigure)
  | [] => .ok []
  | idx :: rest =>
    match plot_trace_waveform rec (tbl.peak_frame idx) (tbl.peak_channel idx) with
    | .error e => .error e
    | .ok fig =>
      match runPeakRows rec tbl rest with
      | .error e => .error e
      | .ok figs => .ok (fig :: figs)

/-- `plot_peak_waveform(recording, peaks_noise_table, start_idx, end_idx)`:
iterate `range(start_idx, end_idx + 1)` and grid-plot each row's
`peak_frame` at its `peak_channel`. -/
def plot_peak_waveform (rec : Recording) (tbl : PeaksTable) (start_idx end_idx : Int) :
    Except String (List GridFigure) :=
  runPeakRows rec tbl (pyRange start_idx (end_idx + 1))

/-- Spec-side rendering (for the refinement claim C3) of "the inclusive
row range [start_idx, end_idx] in ascending order", built by peeling the
top end, to be compared with the `range(start_idx, end_idx + 1)` the code
iterates. -/
def specInclusiveRange (s e : Int) : List Int :=
  if _h : s ≤ e then specInclusiveRange s (e - 1) ++ [e] else []
termination_by (e + 1 - s).toNat
decreasing_by omega

/-! ### Concrete inputs used to instantiate the theorems below. -/

/-- Ten distinct available frames. -/
def tenFrames : List Int := [100, 101, 102, 103, 104, 105, 106, 107, 108, 109]

/-- A small snippet matrix: 2 time steps, 8 channels, entry `t + c`. -/
def matW : Mat := ⟨2, 8, fun t c => (t : Int) + (c : Int)⟩

/-- A small reshaped array: 2 × 2 × 2, entry `i + 2j + 4k`. -/
def arrW : Arr3 := ⟨2, 2, 2, fun i j k => (i : Int) + 2 * (j : Int) + 4 * (k : Int)⟩

/-- A concrete recording whose fetchers return the arrays above. -/
def recW : Recording := ⟨fun _ => matW, fun _ => arrW⟩

/-- A spike table with two frames per unit. -/
def spikesPairW : Spikes := ⟨fun _ => [0, 1]⟩

/-- A spike table with three frames per unit. -/
def spikesTripleW : Spikes := ⟨fun _ => [2, 3, 5]⟩

/-- A spike table with a single frame per unit. -/
def spikesOneW : Spikes := ⟨fun _ => [5]⟩

/-- A peaks table whose `peak_channel` cells hold a bare scalar. -/
def tblScalarW : PeaksTable := ⟨fun i => i, fun _ => PyVal.scalar 3⟩

/-- A peaks table whose `peak_channel` cells hold the one-channel list `[0]`. -/
def tblSeqW : PeaksTable := ⟨fun i => i, fun _ => PyVal.seq [0]⟩

/-- An initial process state: zeroed generator, no figures. -/
def worldW : World Unit := ⟨⟨0, 0⟩, [], ()⟩

/-- The packed MT19937 key after the first 208 seeding steps of seed 0,
paired with the running seed word (an intermediate checkpoint used to
evaluate the generator in stack-friendly chunks). -/
def mtInitMid1 : Nat × Nat := (98933789629473969666174745632210557261512716972832206069152560780553273858253381469388868168772239850538848476274188251674690249521474212828843198712134385343730925321620541532546681051774994925610420058958538592694435482852859784401659932801294684808516848178368250316666056757721032451004262724505975292972999679261986532633881571871136190062463584498222100146896385806309545691821605904004389413827063413442417955723184111064554216029667540584282249333646772813967359457123351370970025535120079791473267842402060452199971381614146898342022492715637185869971023644238946938593535878170458933102385054942755947012857213029873602401257937313252935593827674525268910900791469534170481769545787147964702320133651676965457001560208122382482335721264310921180093569330799880689168785915400812525735427731140437224361015062143429631410945389671356852444770064907012849990069246152887297393362729224080184025329595569439471819489991622063663354660084920083343068611358560849716066427802464294934722380145950315109382476735045894351777107320797965999312764571218040989824069558358645027130774561521014141556998577443697069803872327445918576589740030973921435597326477388794487807792410468641924537730538035499703263578336429727483426744232079138024792651717112909440954284260688831318553096871060077172053321126361231257488374778598345780094795658641715313036111071529049101016928722670119815725322821055020947920861046008515610122896894916295693395111896159528257126815916987131754181472861700947138240988194624065180049259249279448217779680778077777331804699550705158338485677488483505791831590466490533513983877550479686916479946326410957550837270252061871329449430582686575202326927889331826676968412529912724376677937066555554497524845859275763005484077907476288980938844671932945658458970664261840208104622468804917079544043371612461823328779285767881976489403919136875311508682406346171158628294116340150806156691124596676590165572707327500768122228340598212407330490076564302857183795237274194257379328, 1548584683)

/-- The seeding checkpoint after 416 steps of seed 0. -/
def mtInitMid2 : Nat × Nat := (40963920643844047430291569090411634592469514525259218510765930775681572741548531719592179106284534239712241050908679281222075383836526048505167818638789108292074934623498810732596383154531953607161861816236354718633062176665509406737149418202354723136947485571470638317180330833689418800719647449637383712463549269150439629673081717098768534677550486603224804146740771043228407657034023222119380708102424655534672144736291923586809267756875285066633053330163174053889645146214003700028054022225409505447491724338984736402498928228622048597895255439052451777631657675602674515607363938913243862535738760087987614774808019824369191553059915686529124626585387171181496573315511895574860929987120069334685509080745264799798659893293330246874382413057794080685171605494775299652309642626753957805058068196614078863403864902181763253731284502885744362842120614629314694300777305251312650360212697315791623262570347206904556141400038771416781615284264167220198589190828674565699169327093868903874943963324928964342738347454450636716481222357694146286116400489745890305607983937195808204495623216289413519842509972706414007681835400978082241355439828948129929060217222669174141377728481914699584467494445641672232280150802030282371846902118533059197733656332051198352732486297834233447034278177169038148799980998733155626503477426352909282640876105007233662578282170420279787375674346447418236757034338778371581829408655313916381471181785783931406974020770073529031332768010816641355879410663152845264869115261845604747374279538989926327881073595950324560009249722492943301705647974602342443555568000716216096105996090883690667708643295976891262693556965668880338077445452408781055416325971435775448984676273189672214852264809510908808349104719453137490267657968918646330286226450194358467277514568781946989453261184376233682047498416542369048521824061874052227344178672867784959233644078982830524557453168907037252785970504809021198203403099661228413383454119932831890979054178688404777516407907175701626148754282116381110813689834794107093927967788858350517313030124945210726860251462057307787030005432186561327827701780865702845645718795041957431821023980809243010840560206508657206090952399851220531133523504734790426022336026319436845179194761507443954238437423335846446027187757351995379169755752280525633200152914436949506552767181499316974568123281026775865172079435144826889402937209055776667068132179194190970758251282848849126157591759034106601602202196011049962087711985315091529185597202683780225608421502849943842664358712176343456558897433012222125654779380812906558021836137257982735245758642068194648860215476602678582132988112381829509893135808950331180015333383565771543312451538507009193754089579169271120910740364916738710967990665793671698138497553230251685221512347453504978941621689300597470201382740570861722090193972402162416357530828978180475960814269310804248512834750584561396030177740225163949516136682387435427124568061398775471079775581360257414588545299037825686751240993269106393207763039421448044576775647452254418120028552984308242779876791089319198672850257860286986154592973937481947233119704679983011293697927975643862574960321174159424675829595387008130385648577578051975056018934795133736156006842107432880272626934940243438206175413122025127024834042822847481289725040844560580626902288772928080184169494060206509991216280592879663320682197631097349230761731229274221252702553344191017881188858813910505932524580240142923507193879718494463903740876658105951162038698123046571814516890441610915011343965600874752126083502247979052352119371215014571409361353997750884680117580924647944818013237774407837965044748844301146601636058461745151381366485308205567237239418382844032716004501640987473601808873547069927160872223409153298605902388033567847224645423591080507955896728173740629199153879939383327820247661988494892042635327349376088465742174804889389032686257707956180237963095016346624697828509570838709540331453669509493596915316102676521957318478648102725627997585408, 4097751123)

/-- The packed MT19937 key right after `np.random.seed(0)`. -/
def seedKey0 : Nat := 38771340650230836747774818358521719772226776290000958578643231111938324009744134782302161934463784850675209112299537259006497924090422596764895633625964527441694394324941168140639571310600766111932777129392950463987857761674911050738592401730262853788968360221340863861368354071074228346858547381170437917094119584893504364936306163473541948635570644161010981140452515307286926529085424765299100125545326011531068758077747404620304919764343465464501196679453191412759639082508322328693786171941931008280002367375356576993561560212862782813060552179952138911536025132779573429499813926910299964681785069915877910855089314686097947757262145119973487115801584219811030903446741229269343551518402370791803474611972882234596450482558098528191296718338545605631047168928572572291212115270315092802390605053896565646658122125171846129817536096211475312518457776328637574563312811348921654750374350818487214989651848871420975255244232727388306073094596946165686724452256572655459839668206391652850821949075914322962656182669013183989820560425129536975583916120558652408261759226803976460322062347123360444839683204986850778802889411157702391721884612834830284577499750056946590298322718032830737353015529351041962441163817664594681721622840422076809453165905360942948656485953156978630954893391701383648157037914019502853776972615500142898763385846315845779069053167520521382905544230618769210777719307168066815333568820394504993534044499104193033308724359853278458894404583704164641326298665935386298770429697589948685901343135964343582727302330074331803900821801076139161904900333497836662702834578445021192022917028046247445650431736770684937395730979725105244789884362354569956448765150322024834498071361390639378921872992396342523915298221639187055268750679730919937006195967184206072757082920250075756273182004964087790381202406389742421931668782833700788803099477906808166613375107047958139460497460222154896047776117742451811151260413901615921992307749684759447539155339368344740049163514318351045644344358598159463605453475585370226041981040238023241538495843636477611359840842880186764394679165964570854066943299550357507565740635980869288679005905548056398370712985767285649465521632060079970009887459406816074542883814997403673656291618517107133421335645430345871041730410669209035640945502460161831837119209162609248264036466996930776691964522251640762603861666775457811488988463068948623907243580392514443338894461280742094179368302532040642233424784857908022314095011879203259864909560830176189727132432100010493659154644840732629288482646950309340946594601849635851499917526820084620002523544142614077833862351915263713726558942904403565607516807521912243834609720998346550860689989413443881686756951804138910911737670495391762470293978321414964443502180391466598257591952437298577333692199035231362982267702289130794353644225828240125553876468989761931341935062399826217250932919703510836313675825703753813347590041784150668048523676387894646666460369896619585113435743180899362844070393586212502392001718586639974238070635273946584870874696369366300406889205670560301865586866630878942056995559061465345491763528598238321969383861728102747486245170528356758650653040545267425513047130342286119889879774951060662713807133125543465510408602629867482757521670137251352584665064477324143706678203733436798201214879877820046468964680890898262674670056600356045534321974556160787311597780861559443250946037119223468305483694093795324036812927501783593256716590840500905291209660853820527032306557310922702988773155339932454769629523410514015717943041040031096025648330867038632210583815567767890183517264887978456379819745808640821630093543020854542240690897858757985640869209737744458407777584279553258261599024692234810114703446323561399897934468501857790199621809962219072230735662079651374852713715023855273880808240502883716076021018056750217901162233604835085388832149997794718410946818866375912486788005950091851067237358294899771385995876708823910439433245250103309015933322499510898487142675059751331452129400186457823535283567528697324125526855543349667988885348474830309473105188917887224181726008607577773612004956373863580996793809969715725508939568919714424871639667201792225503143115934721083384657535577205557027967326211591115437098308618994812446536776158958870998141749142482550266199419117353418184898221974724992957869977728418516719104857455960900092226749725407204388193002835497055305427730656889150830877886916607374085583821311270930674347967674089315000071409906446826328418734355185429721824977555003007841770675685863954853290211572356963000134900872866571034916258390528533374944905429089028336079264760836949419754851422499614573232601126030414207455478225984390321506414439614010659219396170328812500502353343752127998175407755368476220328524152539665875178006616059054893393063595732234947905196298436841723673626428243649931398749552780311877734063703985375067123950861341704194248724537015291239188556643283065964067789348872372476312012141118552775113567599262328940628143604497574909616530261941077613406140590451721123363102660719217740126157997033682099769790976313166682432732518101889210276957414406539030590494482105173602131052434462634885157363169777155658785983633069973241218665642836547844702151001591227645091975704029979112588165265548633269877535269005418736225944874608987238997316999444215865249840762640949599725696077308389416895982315205450867227261235510890409857944777439845167823919942651334395077374240495785874875050803476863710291568454611512781986052670534082590903158676794894709281917034995611352710898103415304769654883981727681820369090169929516390821485481336541345626481219084269905483070907927524971416940571914009313475724582455300163466046986822697798418036670994802152659263165057371711778109969036572310084022695109125200937135540995157279354438704321290061646592229860015656601360234487022318329550827835911117487274036047384561543710641325638684922862599821183152481488477649299749171576830836593646234589275126163691191945742254080

/-- The key `seedKey0` after the first 208 in-place twist updates. -/
def mtTwistMid1 : Nat := 38771340650230836747774818358521719772226776290000958578643231111938324009744134782302161934463784850675209112299537259006497924090422596764895633625964527441694394324941168140639571310600766111932777129392950463987857761674911050738592401730262853788968360221340863861368354071074228346858547381170437917094119584893504364936306163473541948635570644161010981140452515307286926529085424765299100125545326011531068758077747404620304919764343465464501196679453191412759639082508322328693786171941931008280002367375356576993561560212862782813060552179952138911536025132779573429499813926910299964681785069915877910855089314686097947757262145119973487115801584219811030903446741229269343551518402370791803474611972882234596450482558098528191296718338545605631047168928572572291212115270315092802390605053896565646658122125171846129817536096211475312518457776328637574563312811348921654750374350818487214989651848871420975255244232727388306073094596946165686724452256572655459839668206391652850821949075914322962656182669013183989820560425129536975583916120558652408261759226803976460322062347123360444839683204986850778802889411157702391721884612834830284577499750056946590298322718032830737353015529351041962441163817664594681721622840422076809453165905360942948656485953156978630954893391701383648157037914019502853776972615500142898763385846315845779069053167520521382905544230618769210777719307168066815333568820394504993534044499104193033308724359853278458894404583704164641326298665935386298770429697589948685901343135964343582727302330074331803900821801076139161904900333497836662702834578445021192022917028046247445650431736770684937395730979725105244789884362354569956448765150322024834498071361390639378921872992396342523915298221639187055268750679730919937006195967184206072757082920250075756273182004964087790381202406389742421931668782833700788803099477906808166613375107047958139460497460222154896047776117742451811151260413901615921992307749684759447539155339368344740049163514318351045644344358598159463605453475585370226041981040238023241538495843636477611359840842880186764394679165964570854066943299550357507565740635980869288679005905548056398370712985767285649465521632060079970009887459406816074542883814997403673656291618517107133421335645430345871041730410669209035640945502460161831837119209162609248264036466996930776691964522251640762603861666775457811488988463068948623907243580392514443338894461280742094179368302532040642233424784857908022314095011879203259864909560830176189727132432100010493659154644840732629288482646950309340946594601849635851499917526820084620002523544142614077833862351915263713726558942904403565607516807521912243834609720998346550860689989413443881686756951804138910911737670495391762470293978321414964443502180391466598257591952437298577333692199035231362982267702289130794353644225828240125553876468989761931341935062399826217250932919703510836313675825703753813347590041784150668048523676387894646666460369896619585113435743180899362844070393586212502392001718586639974238070635273946584870874696369366300406889205670560301865586866630878942056995559061465345491763528598238321969383861728102747486245170528356758650653040545267425513047130342286119889879774951060662713807133125543465510408602629867482757521670137251352584665064477324143706678203733436798201214879877820046468964680890898262674670056600356045534321974556160787311597780861559443250946037119223468305483694093795324036812927501783593256716590840500905291209660853820527032306557310922702988773155339932454769629523410514015717943041040031096025648330867038632210583815567767890183517264887978456379819745808640821630093543020854542240690897858757985640869209737744458407777584279553258261599024692234810114703446323561399897934468501857790199621809962219072230735662079651374852713715023855273880808240502883716076021018056750217901162233604835085388832149997794718410946818866375912486788005950091851067237358294899771385995876708823910439433245250103309015933322499510898487142675059704822134350145451566500709899505304727646251746476876454651091227245877608388633757121001614115353045267274220446786411301511113386884879987934680941970477407008500399095280479275844537040531650764500757533097510174329097240796840966049419799075727972260523355828785163417806212864016030514645717531614094154660953986421578032909742885361636188801126110902020711250086883950528510159771953721299625144499749218805650219579576243213512913518143980061951653176007316772073663153958878585794189149270379911057001778991598642947427419529517735251383046832473541595033702347777445248209100795537266257309786887186021033623711972003761450190313862410149759634987925180028552208639312571393530397068143518863983382353597582604077819325639288194897048328780622637907510558750306545764481242694001318812516562169590437575827752425032233063402395076374007475884553694480659813426941025027285939409156319403473696798247583825159236202563412777907846159747147450304228536471932640709524005480478251468018280181083853191186365507167335736947990991437757497106427481086431426778302327378890357641524582318184783962402240898711708705389571919627845163970968940566449757160860210803111573793706746407281007614612291280099945517746311285385803466128564745625354258178545800635971460760537391383825285435755372068853362640039097428258629398720399622449822334859456915131416660410719767286989550739856708738580639126553666997467646220605110670452853213672024235525378733488370428266962209678197921409726197867167075237342909383153866736223839309849239191748493651377551669373340869101065022048143082957847559198001218205246158175405491929240328340112208528477077417045376800833210966018659436944852169367921876789497126113803924364768276931785600627293663329767369038924361042431921378507671639370227645868032635354098709691608608948103554519343473812354464209346695647119480559551376729840384993226387847476043364937813656762217194951093788284331962683365826451202864059608994166449501283559972365600498466656198185782546

/-- The key `seedKey0` after the first 416 in-place twist updates. -/
def mtTwistMid2 : Nat := 38771340650230836747774818358521719772226776290000958578643231111938324009744134782302161934463784850675209112299537259006497924090422596764895633625964527441694394324941168140639571310600766111932777129392950463987857761674911050738592401730262853788968360221340863861368354071074228346858547381170437917094119584893504364936306163473541948635570644161010981140452515307286926529085424765299100125545326011531068758077747404620304919764343465464501196679453191412759639082508322328693786171941931008280002367375356576993561560212862782813060552179952138911536025132779573429499813926910299964681785069915877910855089314686097947757262145119973487115801584219811030903446741229269343551518402370791803474611972882234596450482558098528191296718338545605631047168928572572291212115270315092802390605053896565646658122125171846129817536096211475312518457776328637574563312811348921654750374350818487214989651848871420975255244232727388306073094596946165686724452256572655459839668206391652850821949075914322962656182669013183989820560425129536975583916120558652408261759226803976460322062347123360444839683204986850778802889411157702391721884612834830284577499750056946590298322718032830737353015529351041962441163817664594681721622840422076809453165905360942948656485953156978630954893391701383648157037914019502853776972615500142898763385846315845779069053167520521382905544230618769210777719307168066815333568820394504993534044499104193033308724359853278458894404583704164641326298665935386298770429697589948685901343135964343582727302330074331803900821801076139161904900333497836662702834578445021192022917028046247445650431736770684937395730979725105244789884362354569956448765150322024834498071361390639378921872992396342523915298221639187055268750679730919937006195967184206072757082920250075756273182004964087790381202406389742421931668782833700788803099477906808166613375107047958139460497460222154896047776117742451811151260413901615921992307749684759447539155339368344740049163514318351045644344367407991148394856588755416394504645928989538663806337638502416021671191998345278098747345122394699844164563001999665316818739966520784183752817305384909484866711234329891423089323594639870139827886300581751583312976271892619394732906430556168840762117631283729521304440576889564645135188514096859874184693401199862396425384532373784999905253225433327682019672054003444722565839899815387608189109659178142901587427683416140203372693754129019957163417456148542524797104348433290675620179412720313616051060828561752063757700506944895622705728138212436526408954348299616114935515103584663165671514677707396455138482655728076231530681927840234482836671258857679539911166863422654480959700598388328358802608599918979981873577869672212904672412044459076823266072237359210480680302668442066628614957641731641985519170594791061692482275504489621611573727243215931529443725181124236937284798182604369560964402400185139195618764588445375965362657585134108925064193405228345783120598881663414190314913548234652575180653805698732504728198825582694687528382478822686854955876630424981137170185048660467006039718168948764367547239398050069625747916799754871080041662893729373033339556323295266728163545901961183147691758602610483622048341878637111987588250137883783630927177327227778739013076753218694073274820122798351197183217655149001898837369710526872537383246116674730409722218975760270270238962114189778528005427973144921062642798395003556066914785297706615781322759929836464565689435229473447596519817943942549372074429462636225236606301263351220140558838045687267044654222717967754309530449551757607161335277618837803409750167369522304287462851612804984577103673954680523700714285245099782898764948085113757076009170731303554607535142472329688543265901087800564811131403693074164638621600768759545902443464925653762360094306377809440898930490132877138465495954223835870498057924555323183375565377091669468543676880885954004926335998386592026334794249500873305793240055769482514597476202702594292909685540215637086381302100649222414215960639955060868513149269563028411278112371245952204411209817199276642739526942279470171732917980324681928169365250403997942779982720665960470920796308004322407840671656286251650469504429574076122302193593609608984466551249904245100217809984161175440155334774496269609144950898927213406264124277366456805117841917775925382549115695723441455262763706979184314684600451600028014337247769507887238132623570149184748835240176525417527045466519918505937105939935487749822563199058923255054003819127765725102711209013256376431096181785335299567184470775738160988600194650187821541023169506538359275763016865968162808445340502449704854082500719671558188425028140725614711655067628641077267815161239515477702741078666452706002027360567688295733251543858812209724802669237523578879354849473046792661890811614267361045488580611836947625697405799531330946928654340706628750677783733627280460195323496363024349662133545072383638198659217358733765577683325836954814267438462498563902006834355109681767872298843371715777413221301613431739699581335680972783750946671576010758637122164436844743773634182659695565362412308575405279766468922328966961665587294294218048587526104558452334051001818067369372511259496556050535447879871044611077962229233272207511453071616811501938978100088640925315586300238386419222487864579164533465513970235600695049468283774596922394158695896339366401334210634835299112859787510956981450756612914169914460968674291045413188981590175142367974086098033721896654072698558006487828062279766620417015550759965742485801159322315945759099688593105329425611671666449463233473895787013722432102643192145858633332746973848848559117350322319324614877882322838576354578342968901196434357363476204664893102920428674351083319996618363839114010915931754224819680105140477327896757166895197188474877737455533578842972099121538359025971741087197733758930413694148734525966988319155242094497444750086968160702708439302194016406388301484118877713172962761280201679318532816371605114130

/-- The fully twisted key: the state from which the first outputs after
`np.random.seed(0)` are tempered. -/
def seedKey0T : Nat := 36208487236620823993707872933511266114770011272084687909872785066996701163563062028700794318681807713846902663765168252639799942223479939699325497739054919963210563543468844461658840274928900051387403954537249193897051494248557806660418304525426513389913820364768547895376218915534117081928836597971457455519920790116912689706475707634697915668388374529348354971190920336631640998224938274266357804454268105113761253688752111777368711121927342758156949339209183159604987382558874625557154229715573957394093437923539010630256922843256408198341425506895892438263191791387488159914744109536743223444801021850274732244485003125901938781258571592861800275296357780121477081263375010434347522114135459839896803287675426684942320966194639288970480743067006449067291052942279998903034399073688444371961882608415861684827737781784605374543496606414369188297121051463482962313934676472459126662580407684872693421143010074522794607500576205168055392481754246903591093013047168210957816899518449188894465309532972853516605213223889884800668713315866239958856167336580999631299427497272643430737106496920594936059097914131907275968179335318920198935475660683101546071469944802908146210229116454957453529485168027620146455601915139937477440815162601749087307820617505764438430983469514561171200203462970673699810378968502720877225539233366264679653748721675270841412073031789471764506164724870547677422278870639555010842139518558881789023503344530191538971250035049021020233756997745663934423541019704486689636465739024029932606380878233456325849726242693723848937355636278785512332367573736861054591973668347019345525874288381580955486771979661833713220747397212305100839193115970736264783038786192718168422182374629930929617042411730527723283462204177981115584980115793891796138677081212599540587702469576343629404189198108457507181580711718799791156358374170330577421424878210099848081914573665138200218426311610817734973745824452693568297562013429642231196893155804017139855271355506250874720364534302377191231867402916234329195726360597474653658397386318171130225094012403089816665399573798900485646283313630911068502685958594593116310261821367835314768661130651748369816978326800655173500513877420687122490909528652750211871697049693453119171683534313172475291384917420191978658948233872472694010191301337586085171523445627297149558172255454781104204704237206649299076773276603439879995532731130508997902069163828683848308076708424043426641159945609046339895831323822913498569624175674944766050899217381668667251502555864262253325045840137530889878200363209737841339961335457471951876093554077808533376692138988938848476091098433580356538687633861328948508905097734346787558028304790746092488947036235498857005773436819702911305091959443135769898487856412314389020435972383221476091962268647121605305459793574430012782897224924614087645801227664245512274559629056750542274055892679412368009969045611258445354539448099127648088561837108197709270941189458548763416521320923861542029779475417242001025093827814761662464633526308548936144219786324054816126309225531119048811648994721417332401220794078352575552925489034411813934870161731728118548104162245778543252359502871919834169077010953073746336207755761751555713632787441988065644983810822560333389106373521822091251898654033142823961058788821664103015723206298603464102667788004233834047756867369096596299133886448934163373530737901168875727063530777793429343484259987154460101301510043909731381085808459292163320929362009170215098524820378829171155239231839899537968192340953215910745104178058149572442089424369210908272644127523781978907483386948129407585904037356983541165868574924779377472584054844313798354576996263261289537207219386306632085519665226661723935626099028048018890658688089110264773438695398327829096452673426512448242197818131690383924194895338184447112855043135567096264953675814422042253401824053972240053369646738715159010470469399205237461087674595676165595932746785564582220570821367044517577660998152979249904110280927634941193273255802674280739987305359044572511100345610563348051473736901896369144809514477112737595698370075506908585673747254254726089323552305040437818643138481555369713647650018229874271776170093477599727044491799057122284421403583391081259697533381448875491882246106938205884333792044108455892643270402995505687222922887428841778905802970294784662158595781582276499483411759572748054767775785164665239644813149859691356114418681971863072773874791701092650119323499289825996562564286359586786124339682869643840419373413625443712541473971957898256148025931865610092724558486517868938863675691572632996058982828717293148212734601704380521000668079746708229528517055602174551991037320269325617322914104091896097608809739434430230145347132197401530639841575483497852827912176282370141810699456929094040084238225107461926117054514050551856259866866314780023435771659045434270748363320331880862123165702336096177778738306294120677694514616936466030298459601569689848592101167185436736729436254213535825115696237365914834117706217028330396886748282322171253585874409359848620576798808681977189142654034300840856089481484973790724586156671389497969950225748010402071715490763614470437588030090097691084828709250122560141746966114765426290007115380128651347968891476728692186417175472041598004956969123078660392252376295576745777196792759456691953726414269212326665038506021339029530748487550849378512127207933575475854937260465799934730951452361866319812428386323748496448548477147893160962115597202888258155642637753242916473067713054765246526524051335345182320568765932800706258595534410042787417516935716194759525849782520566294283660745736264722957992471937839425172000725610038371926621947069366290527137205257210276703294164486534813029027341401283470530514608375401264105994683515173084737953016634480617172097692181004446586651630786070215437807572274325594457019310488466243151993791001664180409461463979041990513458440846480452732755876467370823501896150804250262388083534571043071693815362751225228302346021100391698

-- final seeding cursor word: 2501782469

/-! ### Helper theorems: evaluating the generator in chunks.

Forcing 624 seeding steps plus 624 twist updates in one reduction
overflows the elaborator, so the runs are split with `mtInitFrom_add` /
`mtTwistFrom_add` and each 208-step chunk is evaluated by `decide`
against the checkpoint literals above. -/

theorem mtInitFrom_add (a b i : Nat) (p : Nat × Nat) :
    mtInitFrom i (a + b) p = mtInitFrom (i + a) b (mtInitFrom i a p) := by
  induction a generalizing i p with
  | zero => simp [mtInitFrom]
  | succ n ih =>
    rw [Nat.succ_add]
    show mtInitFrom (i + 1) (n + b) (mtInitStep p i) = _
    rw [ih]
    have h : i + 1 + n = i + (n + 1) := by omega
    rw [h]
    rfl

theorem mtInitFrom_split (i a b j : Nat) (p q : Nat × Nat) (hj : i + a = j)
    (hq : mtInitFrom i a p = q) : mtInitFrom i (a + b) p = mtInitFrom j b q := by
  rw [mtInitFrom_add, hj, hq]

theorem mtTwistFrom_add (a b i st : Nat) :
    mtTwistFrom i (a + b) st = mtTwistFrom (i + a) b (mtTwistFrom i a st) := by
  induction a generalizing i st with
  | zero => simp [mtTwistFrom]
  | succ n ih =>
    rw [Nat.succ_add]
    show mtTwistFrom (i + 1) (n + b) (mtTwistStep st i) = _
    rw [ih]
    have h : i + 1 + n = i + (n + 1) := by omega
    rw [h]
    rfl

theorem mtTwistFrom_split (i a b j : Nat) (st st' : Nat) (hj : i + a = j)
    (hq : mtTwistFrom i a st = st') : mtTwistFrom i (a + b) st = mtTwistFrom j b st' := by
  rw [mtTwistFrom_add, hj, hq]

/-- `np.random.seed(0)` computes exactly the checkpoint key `seedKey0`. -/
theorem mtInitKey_zero : mtInitKey 0 = seedKey0 := by
  have h0 : mtInitFrom 0 208 (0, 0) = mtInitMid1 := by decide
  have h1 : mtInitFrom 208 208 mtInitMid1 = mtInitMid2 := by decide
  have h2 : mtInitFrom 416 208 mtInitMid2 = (seedKey0, 2501782469) := by decide
  show (mtInitFrom 0 mtLen (0, u32 0)).1 = seedKey0
  rw [show mtLen = 208 + (208 + 208) from rfl, show u32 0 = 0 from rfl,
    mtInitFrom_split 0 208 (208 + 208) 208 _ _ rfl h0,
    mtInitFrom_split 208 208 208 416 _ _ rfl h1, h2]

/-- The first twist after `np.random.seed(0)` computes `seedKey0T`. -/
theorem mtTwist_seedKey0 : mtTwist seedKey0 = seedKey0T := by
  have h0 : mtTwistFrom 0 208 seedKey0 = mtTwistMid1 := by decide
  have h1 : mtTwistFrom 208 208 mtTwistMid1 = mtTwistMid2 := by decide
  have h2 : mtTwistFrom 416 208 mtTwistMid2 = seedKey0T := by decide
  show mtTwistFrom 0 mtLen seedKey0 = seedKey0T
  rw [show mtLen = 208 + (208 + 208) from rfl,
    mtTwistFrom_split 0 208 (208 + 208) 208 _ _ rfl h0,
    mtTwistFrom_split 208 208 208 416 _ _ rfl h1, h2]

/-- The seeded generator state, with its key evaluated to the literal. -/
theorem seeded_zero_eq : MTState.seeded 0 = ⟨seedKey0, mtLen⟩ := by
  unfold MTState.seeded
  rw [mtInitKey_zero]

/-- First raw output after `np.random.seed(0)`. -/
theorem mtNext32_after_seed0 :
    mtNext32 ⟨seedKey0, mtLen⟩ = (2357136044, ⟨seedKey0T, 1⟩) := by
  have h : mtNext32 ⟨seedKey0, mtLen⟩ =
      (mtTemper (mtGet (mtTwist seedKey0) 0), ⟨mtTwist seedKey0, 0 + 1⟩) := rfl
  rw [h, mtTwist_seedKey0]
  decide

/-- The first bounded draw of `randint(0, 10)` after `np.random.seed(0)`:
the raw outputs masked to 4 bits give 12 and 15 (rejected) and then 5. -/
theorem drawOne_after_seed0 :
    drawOne drawFuel 9 15 ⟨seedKey0, mtLen⟩ = some (5, ⟨seedKey0T, 3⟩) := by
  rw [show drawFuel = 65535 + 1 from rfl, drawOne, mtNext32_after_seed0]
  decide

/-- The ten bounded draws of `randint(0, 10, 10)` after `np.random.seed(0)`. -/
theorem drawMany_after_seed0 :
    drawMany 10 9 15 ⟨seedKey0, mtLen⟩ =
      some ([5, 0, 3, 3, 7, 9, 3, 5, 2, 4], ⟨seedKey0T, 13⟩) := by
  rw [show (10 : Nat) = 9 + 1 from rfl, drawMany, drawOne_after_seed0]
  decide

/-! ### Branch lemmas for the frame selection. -/

theorem selectFrames_all (numW seed : Nat) (frames : List Int) (g : MTState) :
    selectFrames true numW seed frames g = (some frames, g) := rfl

theorem selectFrames_few (numW seed : Nat) (frames : List Int) (g : MTState)
    (h : frames.length < numW) :
    selectFrames false numW seed frames g = (some frames, g) := by
  show (if frames.length < numW then ((some frames, g) : Option (List Int) × MTState)
        else _) = (some frames, g)
  rw [if_pos h]

theorem selectFrames_sample (numW seed : Nat) (frames : List Int) (g : MTState)
    (h : ¬ frames.length < numW) :
    selectFrames false numW seed frames g =
      match npChoice frames numW (MTState.seeded seed) with
      | some (picked, g1) => (some picked, g1)
      | none => (none, MTState.seeded seed) := by
  unfold selectFrames
  rw [if_neg Bool.false_ne_true, if_neg h]

/-! ### Grid arithmetic of `plot_trace_waveform`. -/

theorem ceilSqrtFrom_ge (n : Nat) : ∀ (f k : Nat), k ≤ ceilSqrtFrom n k f := by
  intro f
  induction f with
  | zero => intro k; exact Nat.le_refl _
  | succ f ih =>
    intro k
    unfold ceilSqrtFrom
    split
    · exact Nat.le_refl _
    · exact Nat.le_trans (Nat.le_succ k) (ih (k + 1))

theorem ceilSqrt_ne_zero (n : Nat) (hn : n ≠ 0) : ceilSqrt n ≠ 0 := by
  obtain ⟨m, rfl⟩ := Nat.exists_eq_succ_of_ne_zero hn
  show ceilSqrtFrom (m + 1) 0 (m + 1) ≠ 0
  unfold ceilSqrtFrom
  rw [if_neg (by omega)]
  simp only [Nat.zero_add]
  have h := ceilSqrtFrom_ge (m + 1) m 1
  omega

theorem grid_covers (n c : Nat) (hc : c ≠ 0) :
    n ≤ ceilDiv n c * c ∧ ceilDiv n c * c - n < c := by
  have hcp : 0 < c := Nat.pos_of_ne_zero hc
  unfold ceilDiv
  have hA : (n + c - 1) / c * c ≤ n + c - 1 := Nat.div_mul_le_self _ _
  have hB : n + c - 1 < ((n + c - 1) / c + 1) * c :=
    (Nat.div_lt_iff_lt_mul hcp).mp (Nat.lt_succ_self _)
  rw [Nat.succ_mul] at hB
  set X := (n + c - 1) / c * c with hX
  constructor
  · omega
  · omega

/-- C10: `plot_trace_waveform` on an empty channel list computes `cols = 0`
and dies with a `ZeroDivisionError` in `rows = ceil(n / cols)`, before any
channel data reaches a subplot or anything is rendered (the `Except.error`
carries no figure); contrapositively, every successful call received a
non-empty channel list. -/
theorem c10_empty_channels_divide_by_zero (rec : Recording) (sample_time : Int)
    (chs : List Int) (h : chs = []) :
    plot_trace_waveform rec sample_time (PyVal.seq chs) =
      .error "ZeroDivisionError: division by zero" := by
  subst h
  rfl

theorem c10_witness :
    plot_trace_waveform recW 0 (PyVal.seq []) =
      .error "ZeroDivisionError: division by zero" :=
  c10_empty_channels_divide_by_zero recW 0 [] rfl

/-- C9: a row whose `peak_channel` cell is a bare scalar is forwarded
unwrapped to `plot_trace_waveform`, whose `len(channels)` raises a
`TypeError` — the call fails with no figure rendered, both for the direct
grid-plot call and for `plot_peak_waveform` driving that row. -/
theorem c9_scalar_peak_channel_fails (rec : Recording) (tbl : PeaksTable) (i c : Int)
    (h : tbl.peak_channel i = PyVal.scalar c) :
    plot_trace_waveform rec (tbl.peak_frame i) (tbl.peak_channel i) =
      .error "TypeError: object of type 'int' has no len()" ∧
    plot_peak_waveform rec tbl i i =
      .error "TypeError: object of type 'int' has no len()" := by
  have h1 : plot_trace_waveform rec (tbl.peak_frame i) (tbl.peak_channel i) =
      .error "TypeError: object of type 'int' has no len()" := by
    rw [h]
    rfl
  refine ⟨h1, ?_⟩
  unfold plot_peak_waveform
  have hr : pyRange i (i + 1) = [i] := by
    unfold pyRange
    rw [show i + 1 - i = 1 from by omega,
      show ((1 : Int)).toNat = 1 from rfl, show List.range 1 = [0] from rfl]
    simp
  rw [hr]
  unfold runPeakRows
  rw [h1]

theorem c9_witness :
    plot_trace_waveform recW (tblScalarW.peak_frame 7) (tblScalarW.peak_channel 7) =
      .error "TypeError: object of type 'int' has no len()" ∧
    plot_peak_waveform recW tblScalarW 7 7 =
      .error "TypeError: object of type 'int' has no len()" :=
  c9_scalar_peak_channel_fails recW tblScalarW 7 3 rfl

/-- C2: a successful `plot_trace_waveform` call on `n` channels lays its
subplots out on the grid `cols = ceil(sqrt n)`, `rows = ceil(n / cols)`,
and that grid covers all channels with less than one spare row:
`rows * cols ≥ n` and `rows * cols - n < cols`. -/
theorem c2_grid_near_square (rec : Recording) (sample_time : Int)
    (chs : List Int) (fig : GridFigure)
    (h : plot_trace_waveform rec sample_time (PyVal.seq chs) = .ok fig) :
    fig.cols = ceilSqrt chs.length ∧ fig.rows = ceilDiv chs.length fig.cols ∧
    chs.length ≤ fig.rows * fig.cols ∧ fig.rows * fig.cols - chs.length < fig.cols := by
  unfold plot_trace_waveform at h
  simp only [pyLen] at h
  split at h
  · exact absurd h (by simp)
  · next hcols =>
    split at h
    · exact absurd h (by simp)
    · injection h with h
      subst h
      refine ⟨rfl, rfl, ?_, ?_⟩
      · exact (grid_covers chs.length (ceilSqrt chs.length) hcols).1
      · exact (grid_covers chs.length (ceilSqrt chs.length) hcols).2

theorem c2_witness :
    (GridFigure.mk 2 3 [[0, 1], [1, 2], [2, 3], [3, 4], [4, 5]] 1).cols =
      ceilSqrt [0, 1, 2, 3, 4].length ∧
    (GridFigure.mk 2 3 [[0, 1], [1, 2], [2, 3], [3, 4], [4, 5]] 1).rows =
      ceilDiv [0, 1, 2, 3, 4].length
        (GridFigure.mk 2 3 [[0, 1], [1, 2], [2, 3], [3, 4], [4, 5]] 1).cols ∧
    [0, 1, 2, 3, 4].length ≤
      (GridFigure.mk 2 3 [[0, 1], [1, 2], [2, 3], [3, 4], [4, 5]] 1).rows *
      (GridFigure.mk 2 3 [[0, 1], [1, 2], [2, 3], [3, 4], [4, 5]] 1).cols ∧
    (GridFigure.mk 2 3 [[0, 1], [1, 2], [2, 3], [3, 4], [4, 5]] 1).rows *
      (GridFigure.mk 2 3 [[0, 1], [1, 2], [2, 3], [3, 4], [4, 5]] 1).cols -
      [0, 1, 2, 3, 4].length <
      (GridFigure.mk 2 3 [[0, 1], [1, 2], [2, 3], [3, 4], [4, 5]] 1).cols :=
  c2_grid_near_square recW 0 [0, 1, 2, 3, 4]
    (GridFigure.mk 2 3 [[0, 1], [1, 2], [2, 3], [3, 4], [4, 5]] 1) rfl

/-! ### The row iteration of `plot_peak_waveform`. -/

theorem pyRange_eq_spec (s e : Int) : pyRange s (e + 1) = specInclusiveRange s e := by
  have H : ∀ (n : Nat) (s e : Int), (e + 1 - s).toNat = n →
      pyRange s (e + 1) = specInclusiveRange s e := by
    intro n
    induction n with
    | zero =>
      intro s e hn
      have hse : ¬ s ≤ e := by omega
      unfold pyRange specInclusiveRange
      rw [hn, dif_neg hse]
      rfl
    | succ n ih =>
      intro s e hn
      have hse : s ≤ e := by omega
      unfold specInclusiveRange
      rw [dif_pos hse, ← ih s (e - 1) (by omega)]
      unfold pyRange
      rw [hn, show (e - 1 + 1 - s).toNat = n from by omega, List.range_succ,
        List.map_append]
      simp only [List.map_cons, List.map_nil]
      rw [show s + (n : Int) = e from by omega]
  exact H ((e + 1 - s).toNat) s e rfl

/-- C3: `plot_peak_waveform` iterates `range(start_idx, end_idx + 1)`,
which is exactly the spec's ascending inclusive row range; in particular
driving rows 2..4 performs exactly the three grid-plot calls for rows
2, 3, 4 in that order, each with that row's `peak_frame` and
`peak_channel`. -/
theorem c3_ascending_rows_three_calls (rec : Recording) (tbl : PeaksTable)
    (s e : Int) (f2 f3 f4 : GridFigure)
    (h2 : plot_trace_waveform rec (tbl.peak_frame 2) (tbl.peak_channel 2) = .ok f2)
    (h3 : plot_trace_waveform rec (tbl.peak_frame 3) (tbl.peak_channel 3) = .ok f3)
    (h4 : plot_trace_waveform rec (tbl.peak_frame 4) (tbl.peak_channel 4) = .ok f4) :
    pyRange s (e + 1) = specInclusiveRange s e ∧
    plot_peak_waveform rec tbl 2 4 = .ok [f2, f3, f4] := by
  refine ⟨pyRange_eq_spec s e, ?_⟩
  unfold plot_peak_waveform
  rw [show pyRange 2 (4 + 1) = [2, 3, 4] from by decide]
  simp only [runPeakRows, h2, h3, h4]

theorem c3_witness :
    pyRange (-3) (7 + 1) = specInclusiveRange (-3) 7 ∧
    plot_peak_waveform recW tblSeqW 2 4 =
      .ok [⟨1, 1, [[0, 1]], 0⟩, ⟨1, 1, [[0, 1]], 0⟩, ⟨1, 1, [[0, 1]], 0⟩] :=
  c3_ascending_rows_three_calls recW tblSeqW (-3) 7 _ _ _ rfl rfl rfl

/-! ### Minimum / maximum machinery for `plot_trace_image`. -/

theorem listMin_eq_none (l : List Int) : listMin l = none ↔ l = [] := by
  cases l <;> simp [listMin]

theorem listMax_eq_none (l : List Int) : listMax l = none ↔ l = [] := by
  cases l <;> simp [listMax]

theorem listMin_cons (a : Int) (l : List Int) :
    listMin (a :: l) =
      some (match listMin l with | none => a | some m => min a m) := rfl

theorem listMax_cons (a : Int) (l : List Int) :
    listMax (a :: l) =
      some (match listMax l with | none => a | some m => max a m) := rfl

theorem listMin_eq_some_iff : ∀ (l : List Int) (m : Int),
    listMin l = some m ↔ m ∈ l ∧ ∀ x ∈ l, m ≤ x := by
  intro l
  induction l with
  | nil =>
    intro m
    constructor
    · intro h
      exact Option.noConfusion h
    · rintro ⟨h, _⟩
      exact absurd h (List.not_mem_nil m)
  | cons a l ih =>
    intro m
    rw [listMin_cons]
    cases hl : listMin l with
    | none =>
      have hnil : l = [] := (listMin_eq_none l).mp hl
      subst hnil
      constructor
      · intro h
        have hm : a = m := Option.some.inj h
        subst hm
        refine ⟨List.mem_cons_self a [], ?_⟩
        intro x hx
        rcases List.mem_cons.mp hx with rfl | hx
        · exact le_refl _
        · exact absurd hx (List.not_mem_nil x)
      · rintro ⟨hm, _⟩
        rcases List.mem_cons.mp hm with rfl | hx
        · rfl
        · exact absurd hx (List.not_mem_nil m)
    | some b =>
      have hb := (ih b).mp hl
      constructor
      · intro h
        have hm : min a b = m := Option.some.inj h
        subst hm
        refine ⟨?_, ?_⟩
        · rcases min_choice a b with h1 | h1 <;> rw [h1]
          · exact List.mem_cons_self a l
          · exact List.mem_cons_of_mem a hb.1
        · intro x hx
          rcases List.mem_cons.mp hx with hxa | hx
          · rw [hxa]
            exact min_le_left a b
          · exact le_trans (min_le_right a b) (hb.2 x hx)
      · rintro ⟨hm, hall⟩
        have hma : m ≤ a := hall a (List.mem_cons_self a l)
        have hmb : m ≤ b := hall b (List.mem_cons_of_mem a hb.1)
        have h1 : m ≤ min a b := le_min hma hmb
        have h2 : min a b ≤ m := by
          rcases List.mem_cons.mp hm with hxa | hx
          · rw [hxa]
            exact min_le_left a b
          · exact le_trans (min_le_right a b) (hb.2 m hx)
        exact congrArg some (le_antisymm h2 h1)

theorem listMax_eq_some_iff : ∀ (l : List Int) (m : Int),
    listMax l = some m ↔ m ∈ l ∧ ∀ x ∈ l, x ≤ m := by
  intro l
  induction l with
  | nil =>
    intro m
    constructor
    · intro h
      exact Option.noConfusion h
    · rintro ⟨h, _⟩
      exact absurd h (List.not_mem_nil m)
  | cons a l ih =>
    intro m
    rw [listMax_cons]
    cases hl : listMax l with
    | none =>
      have hnil : l = [] := (listMax_eq_none l).mp hl
      subst hnil
      constructor
      · intro h
        have hm : a = m := Option.some.inj h
        subst hm
        refine ⟨List.mem_cons_self a [], ?_⟩
        intro x hx
        rcases List.mem_cons.mp hx with rfl | hx
        · exact le_refl _
        · exact absurd hx (List.not_mem_nil x)
      · rintro ⟨hm, _⟩
        rcases List.mem_cons.mp hm with rfl | hx
        · rfl
        · exact absurd hx (List.not_mem_nil m)
    | some b =>
      have hb := (ih b).mp hl
      constructor
      · intro h
        have hm : max a b = m := Option.some.inj h
        subst hm
        refine ⟨?_, ?_⟩
        · rcases max_choice a b with h1 | h1 <;> rw [h1]
          · exact List.mem_cons_self a l
          · exact List.mem_cons_of_mem a hb.1
        · intro x hx
          rcases List.mem_cons.mp hx with hxa | hx
          · rw [hxa]
            exact le_max_left a b
          · exact le_trans (hb.2 x hx) (le_max_right a b)
      · rintro ⟨hm, hall⟩
        have hma : a ≤ m := hall a (List.mem_cons_self a l)
        have hmb : b ≤ m := hall b (List.mem_cons_of_mem a hb.1)
        have h1 : max a b ≤ m := max_le hma hmb
        have h2 : m ≤ max a b := by
          rcases List.mem_cons.mp hm with hxa | hx
          · rw [hxa]
            exact le_max_left a b
          · exact le_trans (hb.2 m hx) (le_max_right a b)
        exact congrArg some (le_antisymm h1 h2)

theorem listMin_congr (l1 l2 : List Int) (h : ∀ x, x ∈ l1 ↔ x ∈ l2) :
    listMin l1 = listMin l2 := by
  cases h1 : listMin l1 with
  | none =>
    have hn : l1 = [] := (listMin_eq_none l1).mp h1
    subst hn
    cases h2 : listMin l2 with
    | none => rfl
    | some b =>
      have hb := (listMin_eq_some_iff l2 b).mp h2
      exact absurd ((h b).mpr hb.1) (List.not_mem_nil b)
  | some m =>
    have hm := (listMin_eq_some_iff l1 m).mp h1
    cases h2 : listMin l2 with
    | none =>
      have hn : l2 = [] := (listMin_eq_none l2).mp h2
      subst hn
      exact absurd ((h m).mp hm.1) (List.not_mem_nil m)
    | some b =>
      have hb := (listMin_eq_some_iff l2 b).mp h2
      have ha : m ≤ b := hm.2 b ((h b).mpr hb.1)
      have hc : b ≤ m := hb.2 m ((h m).mp hm.1)
      rw [le_antisymm ha hc]

theorem listMax_congr (l1 l2 : List Int) (h : ∀ x, x ∈ l1 ↔ x ∈ l2) :
    listMax l1 = listMax l2 := by
  cases h1 : listMax l1 with
  | none =>
    have hn : l1 = [] := (listMax_eq_none l1).mp h1
    subst hn
    cases h2 : listMax l2 with
    | none => rfl
    | some b =>
      have hb := (listMax_eq_some_iff l2 b).mp h2
      exact absurd ((h b).mpr hb.1) (List.not_mem_nil b)
  | some m =>
    have hm := (listMax_eq_some_iff l1 m).mp h1
    cases h2 : listMax l2 with
    | none =>
      have hn : l2 = [] := (listMax_eq_none l2).mp h2
      subst hn
      exact absurd ((h m).mp hm.1) (List.not_mem_nil m)
    | some b =>
      have hb := (listMax_eq_some_iff l2 b).mp h2
      have ha : b ≤ m := hm.2 b ((h b).mpr hb.1)
      have hc : m ≤ b := hb.2 m ((h m).mp hm.1)
      rw [le_antisymm hc ha]

theorem mem_arr3Elems (a : Arr3) (x : Int) :
    x ∈ arr3Elems a ↔
      ∃ i j k, i < a.d0 ∧ j < a.d1 ∧ k < a.d2 ∧ a.entry i j k = x := by
  unfold arr3Elems
  constructor
  · intro hx
    rcases List.mem_flatMap.mp hx with ⟨i, hi, hx⟩
    rcases List.mem_flatMap.mp hx with ⟨j, hj, hx⟩
    rcases List.mem_map.mp hx with ⟨k, hk, he⟩
    exact ⟨i, j, k, List.mem_range.mp hi, List.mem_range.mp hj, List.mem_range.mp hk, he⟩
  · rintro ⟨i, j, k, hi, hj, hk, he⟩
    refine List.mem_flatMap.mpr ⟨i, List.mem_range.mpr hi, ?_⟩
    refine List.mem_flatMap.mpr ⟨j, List.mem_range.mpr hj, ?_⟩
    exact List.mem_map.mpr ⟨k, List.mem_range.mpr hk, he⟩

theorem mem_arr3Elems_transpose (a : Arr3) (x : Int) :
    x ∈ arr3Elems (transpose102 a) ↔ x ∈ arr3Elems a := by
  rw [mem_arr3Elems, mem_arr3Elems]
  constructor
  · rintro ⟨i, j, k, hi, hj, hk, he⟩
    exact ⟨j, i, k, hj, hi, hk, he⟩
  · rintro ⟨i, j, k, hi, hj, hk, he⟩
    exact ⟨j, i, k, hj, hi, hk, he⟩

/-- C4: in a successful `plot_trace_image` call every rendered variant
panel carries the same color-scale bounds, and they are the global
minimum and maximum over the entire reshaped trace array (the transpose
rearranges but does not change the set of entries), computed once before
rendering. -/
theorem c4_panels_share_global_bounds (rec : Recording) (sample_frame : Int)
    (fig : ImageFigure) (p : ImgPanel)
    (hok : plot_trace_image rec sample_frame = .ok fig) (hp : p ∈ fig.panels) :
    some p.vmin = listMin (arr3Elems (get_trace_reshaped rec sample_frame)) ∧
    some p.vmax = listMax (arr3Elems (get_trace_reshaped rec sample_frame)) := by
  simp only [plot_trace_image] at hok
  cases hmin : listMin (arr3Elems (transpose102 (get_trace_reshaped rec sample_frame))) with
  | none =>
    rw [hmin] at hok
    exact absurd hok (by simp)
  | some vmin =>
    rw [hmin] at hok
    cases hmax : listMax (arr3Elems (transpose102 (get_trace_reshaped rec sample_frame))) with
    | none =>
      rw [hmax] at hok
      exact absurd hok (by simp)
    | some vmax =>
      rw [hmax] at hok
      injection hok with hok
      subst hok
      rcases List.mem_map.mp hp with ⟨i, _, hpi⟩
      have hvmin : p.vmin = vmin := by rw [← hpi]
      have hvmax : p.vmax = vmax := by rw [← hpi]
      constructor
      · rw [hvmin, ← hmin]
        exact listMin_congr _ _
          (mem_arr3Elems_transpose (get_trace_reshaped rec sample_frame))
      · rw [hvmax, ← hmax]
        exact listMax_congr _ _
          (mem_arr3Elems_transpose (get_trace_reshaped rec sample_frame))

theorem c4_witness :
    some (ImgPanel.mk [[0, 1], [2, 3]] 0 7).vmin =
      listMin (arr3Elems (get_trace_reshaped recW 0)) ∧
    some (ImgPanel.mk [[0, 1], [2, 3]] 0 7).vmax =
      listMax (arr3Elems (get_trace_reshaped recW 0)) :=
  c4_panels_share_global_bounds recW 0
    (ImageFigure.mk [⟨[[0, 1], [2, 3]], 0, 7⟩, ⟨[[4, 5], [6, 7]], 0, 7⟩])
    ⟨[[0, 1], [2, 3]], 0, 7⟩ rfl (by decide)

/-! ### `plot_unit_waveform`: determinism and frame effects. -/

theorem optMap_length {α β : Type} (l : List α) (f : α → Option β) (bs : List β)
    (h : optMap l f = some bs) : bs.length = l.length := by
  induction l generalizing bs with
  | nil =>
    simp only [optMap] at h
    injection h with h
    subst h
    rfl
  | cons a l ih =>
    simp only [optMap] at h
    cases hfa : f a with
    | none =>
      rw [hfa] at h
      exact absurd h (by simp)
    | some b =>
      rw [hfa] at h
      cases ho : optMap l f with
      | none =>
        rw [ho] at h
        exact absurd h (by simp)
      | some bs' =>
        rw [ho] at h
        injection h with h
        subst h
        simp [ih bs' ho]

/-- C5: the frame selection of `plot_unit_waveform` does not depend on the
prior state of the process-wide random generator: whatever the generator
held before the call, the same `spikes`, `unit_id`, `all_waveforms`,
`num_waveforms` and `seed` select the identical frame subset (the sampling
branch reseeds from `seed` before drawing). -/
theorem c5_selection_deterministic (spikes : Spikes) (unit_id : Int) (allW : Bool)
    (numW seed : Nat) (g1 g2 : MTState) :
    (selectFrames allW numW seed (get_unit_frames spikes unit_id) g1).1 =
      (selectFrames allW numW seed (get_unit_frames spikes unit_id) g2).1 := by
  cases allW with
  | true => rw [selectFrames_all, selectFrames_all]
  | false =>
    by_cases h : (get_unit_frames spikes unit_id).length < numW
    · rw [selectFrames_few _ _ _ _ h, selectFrames_few _ _ _ _ h]
    · rw [selectFrames_sample _ _ _ _ h, selectFrames_sample _ _ _ _ h]

/-- C6: when fewer frames are available than `num_waveforms`, every
available frame is selected (the generator untouched) and plotted — one
overlaid line per frame — whatever `all_waveforms` is. -/
theorem c6_few_frames_plots_all {ε : Type} (rec : Recording) (spikes : Spikes)
    (unit_id channel_id : Int) (allW : Bool) (numW seed : Nat) (w : World ε)
    (lines : List (List Int))
    (hfew : (get_unit_frames spikes unit_id).length < numW)
    (hl : optMap (get_unit_frames spikes unit_id)
        (fun frame => pyCol (get_trace_snippet rec frame) channel_id) = some lines) :
    selectFrames allW numW seed (get_unit_frames spikes unit_id) w.rng =
      (some (get_unit_frames spikes unit_id), w.rng) ∧
    plot_unit_waveform rec spikes unit_id channel_id allW numW seed w =
      .ok ⟨w.rng, w.figures ++ [Figure.unitOverlay lines], w.env⟩ ∧
    lines.length = (get_unit_frames spikes unit_id).length := by
  have hsel : selectFrames allW numW seed (get_unit_frames spikes unit_id) w.rng =
      (some (get_unit_frames spikes unit_id), w.rng) := by
    cases allW with
    | true => exact selectFrames_all _ _ _ _
    | false => exact selectFrames_few _ _ _ _ hfew
  refine ⟨hsel, ?_, optMap_length _ _ _ hl⟩
  simp only [plot_unit_waveform, hsel, hl]

theorem c6_witness :
    selectFrames false 3 0 (get_unit_frames spikesPairW 1) worldW.rng =
      (some (get_unit_frames spikesPairW 1), worldW.rng) ∧
    plot_unit_waveform recW spikesPairW 1 0 false 3 0 worldW =
      .ok ⟨worldW.rng, worldW.figures ++ [Figure.unitOverlay [[0, 1], [0, 1]]],
        worldW.env⟩ ∧
    ([[0, 1], [0, 1]] : List (List Int)).length =
      (get_unit_frames spikesPairW 1).length :=
  c6_few_frames_plots_all recW spikesPairW 1 0 false 3 0 worldW
    [[0, 1], [0, 1]] (by decide) rfl

/-- C7: with `all_waveforms = True` no sampling happens: the generator is
untouched and the displayed figure overlays exactly one line per frame
returned by `get_unit_frames`, each obtained by fetching that frame's
snippet and taking the `channel_id` column. -/
theorem c7_all_waveforms_one_line_per_frame {ε : Type} (rec : Recording)
    (spikes : Spikes) (unit_id channel_id : Int) (numW seed : Nat) (w : World ε)
    (lines : List (List Int))
    (hl : optMap (get_unit_frames spikes unit_id)
        (fun frame => pyCol (get_trace_snippet rec frame) channel_id) = some lines) :
    plot_unit_waveform rec spikes unit_id channel_id true numW seed w =
      .ok ⟨w.rng, w.figures ++ [Figure.unitOverlay lines], w.env⟩ ∧
    lines.length = (get_unit_frames spikes unit_id).length := by
  refine ⟨?_, optMap_length _ _ _ hl⟩
  simp only [plot_unit_waveform, selectFrames_all, hl]

theorem c7_witness :
    plot_unit_waveform recW spikesTripleW 4 1 true 10 0 worldW =
      .ok ⟨worldW.rng, worldW.figures ++ [Figure.unitOverlay [[1, 2], [1, 2], [1, 2]]],
        worldW.env⟩ ∧
    ([[1, 2], [1, 2], [1, 2]] : List (List Int)).length =
      (get_unit_frames spikesTripleW 4).length :=
  c7_all_waveforms_one_line_per_frame recW spikesTripleW 4 1 10 0 worldW
    [[1, 2], [1, 2], [1, 2]] rfl

/-- C8: a completed `plot_unit_waveform` call leaves every process
resource other than the backend figure list and the global random
generator untouched (`env` unchanged, exactly one figure appended); the
generator is untouched unless the sampling branch runs, in which case its
final state is the one reached from reseeding with `seed` and drawing —
independent of the generator state the caller had. -/
theorem c8_reseeds_only_rng_and_figures {ε : Type} (rec : Recording)
    (spikes : Spikes) (unit_id channel_id : Int) (allW : Bool) (numW seed : Nat)
    (w w' : World ε)
    (hok : plot_unit_waveform rec spikes unit_id channel_id allW numW seed w = .ok w') :
    w'.env = w.env ∧
    w'.figures.length = w.figures.length + 1 ∧
    w'.figures.take w.figures.length = w.figures ∧
    w'.rng = (if allW = true ∨ (get_unit_frames spikes unit_id).length < numW
      then w.rng
      else (Option.map Prod.snd
        (npChoice (get_unit_frames spikes unit_id) numW (MTState.seeded seed))).getD
          w.rng) := by
  by_cases hcond : allW = true ∨ (get_unit_frames spikes unit_id).length < numW
  · have hsel : selectFrames allW numW seed (get_unit_frames spikes unit_id) w.rng =
        (some (get_unit_frames spikes unit_id), w.rng) := by
      rcases hcond with h | h
      · subst h
        exact selectFrames_all _ _ _ _
      · cases allW with
        | true => exact selectFrames_all _ _ _ _
        | false => exact selectFrames_few _ _ _ _ h
    simp only [plot_unit_waveform, hsel] at hok
    cases ho : optMap (get_unit_frames spikes unit_id)
        (fun frame => pyCol (get_trace_snippet rec frame) channel_id) with
    | none =>
      rw [ho] at hok
      exact absurd hok (by simp)
    | some lines =>
      rw [ho] at hok
      injection hok with hok
      subst hok
      refine ⟨rfl, by simp, ?_, ?_⟩
      · exact List.take_left _ _
      · rw [if_pos hcond]
  · have hfalse : allW = false := by
      cases allW with
      | true => exact absurd (Or.inl rfl) hcond
      | false => rfl
    subst hfalse
    have hns : ¬ (get_unit_frames spikes unit_id).length < numW := by
      intro h
      exact hcond (Or.inr h)
    have hsel := selectFrames_sample numW seed (get_unit_frames spikes unit_id) w.rng hns
    cases hch : npChoice (get_unit_frames spikes unit_id) numW (MTState.seeded seed) with
    | none =>
      simp only [plot_unit_waveform, hsel, hch] at hok
      exact absurd hok (by simp)
    | some pg =>
      obtain ⟨picked, g1⟩ := pg
      simp only [plot_unit_waveform, hsel, hch] at hok
      cases ho : optMap picked
          (fun frame => pyCol (get_trace_snippet rec frame) channel_id) with
      | none =>
        rw [ho] at hok
        exact absurd hok (by simp)
      | some lines =>
        rw [ho] at hok
        injection hok with hok
        subst hok
        refine ⟨rfl, by simp, ?_, ?_⟩
        · exact List.take_left _ _
        · rw [if_neg hcond]
          rfl

theorem c8_witness :
    (World.mk (MTState.seeded 0) [Figure.unitOverlay [[0, 1]]] ()).env = worldW.env ∧
    (World.mk (MTState.seeded 0) [Figure.unitOverlay [[0, 1]]] ()).figures.length =
      worldW.figures.length + 1 ∧
    (World.mk (MTState.seeded 0) [Figure.unitOverlay [[0, 1]]] ()).figures.take
      worldW.figures.length = worldW.figures ∧
    (World.mk (MTState.seeded 0) [Figure.unitOverlay [[0, 1]]] ()).rng =
      (if false = true ∨ (get_unit_frames spikesOneW 1).length < 1
       then worldW.rng
       else (Option.map Prod.snd
         (npChoice (get_unit_frames spikesOneW 1) 1 (MTState.seeded 0))).getD
           worldW.rng) :=
  c8_reseeds_only_rng_and_figures recW spikesOneW 1 0 false 1 0 worldW
    ⟨MTState.seeded 0, [Figure.unitOverlay [[0, 1]]], ()⟩ rfl

/-! ### What `np.random.choice(a, n)` guarantees — and what it does not. -/

theorem drawOne_le (rng mask : Nat) :
    ∀ (fuel : Nat) (g : MTState) (v : Nat) (g' : MTState),
      drawOne fuel rng mask g = some (v, g') → v ≤ rng := by
  intro fuel
  induction fuel with
  | zero =>
    intro g v g' h
    exact Option.noConfusion h
  | succ f ih =>
    intro g v g' h
    simp only [drawOne] at h
    split at h
    · next hle =>
      injection h with h
      rw [Prod.mk.injEq] at h
      obtain ⟨h1, _⟩ := h
      rw [← h1]
      exact hle
    · exact ih _ _ _ h

theorem drawMany_spec (rng mask : Nat) :
    ∀ (cnt : Nat) (g : MTState) (l : List Nat) (g' : MTState),
      drawMany cnt rng mask g = some (l, g') →
      l.length = cnt ∧ ∀ v ∈ l, v ≤ rng := by
  intro cnt
  induction cnt with
  | zero =>
    intro g l g' h
    simp only [drawMany] at h
    injection h with h
    rw [Prod.mk.injEq] at h
    obtain ⟨h1, _⟩ := h
    rw [← h1]
    exact ⟨rfl, fun v hv => absurd hv (List.not_mem_nil v)⟩
  | succ c ih =>
    intro g l g' h
    simp only [drawMany] at h
    cases h1 : drawOne drawFuel rng mask g with
    | none =>
      rw [h1] at h
      exact absurd h (by simp)
    | some vg =>
      obtain ⟨v, g1⟩ := vg
      simp only [h1] at h
      cases h2 : drawMany c rng mask g1 with
      | none =>
        rw [h2] at h
        exact absurd h (by simp)
      | some lg =>
        obtain ⟨l2, g2⟩ := lg
        simp only [h2] at h
        injection h with h
        rw [Prod.mk.injEq] at h
        obtain ⟨h3, _⟩ := h
        obtain ⟨hlen, hmem⟩ := ih g1 l2 g2 h2
        rw [← h3]
        constructor
        · simp [hlen]
        · intro x hx
          rcases List.mem_cons.mp hx with hxv | hx
          · rw [hxv]
            exact drawOne_le rng mask drawFuel g v g1 h1
          · exact hmem x hx

theorem randintList_spec (cnt pop : Nat) (g : MTState) (l : List Nat) (g' : MTState)
    (hpop : pop ≠ 0) (h : randintList cnt pop g = some (l, g')) :
    l.length = cnt ∧ ∀ v ∈ l, v < pop := by
  unfold randintList at h
  rw [if_neg hpop] at h
  by_cases h1 : pop = 1
  · rw [if_pos h1] at h
    injection h with h
    rw [Prod.mk.injEq] at h
    obtain ⟨h2, _⟩ := h
    rw [← h2]
    constructor
    · exact List.length_replicate _ _
    · intro v hv
      have hv0 := List.eq_of_mem_replicate hv
      omega
  · rw [if_neg h1] at h
    obtain ⟨hl, hb⟩ := drawMany_spec (pop - 1) (genMask (pop - 1)) cnt g l g' h
    refine ⟨hl, fun v hv => ?_⟩
    have := hb v hv
    omega

theorem getD_mem_of_lt {α : Type} (l : List α) (d : α) :
    ∀ i, i < l.length → l.getD i d ∈ l := by
  induction l with
  | nil =>
    intro i h
    simp at h
  | cons a l ih =>
    intro i h
    cases i with
    | zero => exact List.mem_cons_self a l
    | succ j =>
      have hj : j < l.length := by simpa using h
      exact List.mem_cons_of_mem a (ih j hj)

theorem npChoice_spec (pop : List Int) (cnt : Nat) (g : MTState)
    (picked : List Int) (g' : MTState)
    (h : npChoice pop cnt g = some (picked, g')) :
    picked.length = cnt ∧ ∀ x ∈ picked, x ∈ pop := by
  unfold npChoice at h
  by_cases hp : pop.length = 0
  · rw [if_pos hp] at h
    exact absurd h (by simp)
  · rw [if_neg hp] at h
    cases hr : randintList cnt pop.length g with
    | none =>
      rw [hr] at h
      exact absurd h (by simp)
    | some ig =>
      obtain ⟨idx, g1⟩ := ig
      simp only [hr] at h
      injection h with h
      rw [Prod.mk.injEq] at h
      obtain ⟨h2, _⟩ := h
      obtain ⟨hl, hb⟩ := randintList_spec cnt pop.length g idx g1 hp hr
      rw [← h2]
      constructor
      · rw [List.length_map, hl]
      · intro x hx
        rcases List.mem_map.mp hx with ⟨i, hi, he⟩
        rw [← he]
        exact getD_mem_of_lt pop 0 i (hb i hi)

/-- C1 (amended): in the sampling branch (`all_waveforms` unset and at
least `num_waveforms` frames available) the selection drawn by
`np.random.choice` has length `num_waveforms` and every selected frame is
one of the available frames, but the draw is WITH replacement, so the
selected frames need not be pairwise distinct. -/
theorem c1_amended_with_replacement (frames : List Int) (numW seed : Nat)
    (g : MTState) (picked : List Int)
    (hn : numW ≤ frames.length)
    (h : (selectFrames false numW seed frames g).1 = some picked) :
    picked.length = numW ∧ ∀ x ∈ picked, x ∈ frames := by
  rw [selectFrames_sample numW seed frames g (by omega)] at h
  cases hch : npChoice frames numW (MTState.seeded seed) with
  | none =>
    simp only [hch] at h
    exact Option.noConfusion h
  | some pg =>
    obtain ⟨picked', g1⟩ := pg
    simp only [hch] at h
    injection h with h
    rw [← h]
    exact npChoice_spec frames numW (MTState.seeded seed) picked' g1 hch

theorem c1_amended_witness :
    ([5] : List Int).length = 1 ∧ ∀ x ∈ ([5] : List Int), x ∈ ([5] : List Int) :=
  c1_amended_with_replacement [5] 1 0 ⟨0, 0⟩ [5] (by decide) rfl

/-- C1 (counterexample): with the default `num_waveforms = 10` and
`seed = 0` and the ten distinct available frames 100..109, the code's
`np.random.choice(sample_frames, num_waveforms)` (replace defaults to
True) selects frames [105, 100, 103, 103, 107, 109, 103, 105, 102, 104]:
103 is drawn three times and 105 twice, so the selected frames are NOT
pairwise distinct positions of the available frame list — the draw is
with, not without, replacement. -/
theorem c1_counterexample_duplicates :
    (selectFrames false 10 0 tenFrames ⟨0, 0⟩).1 =
      some [105, 100, 103, 103, 107, 109, 103, 105, 102, 104] ∧
    ¬ ([105, 100, 103, 103, 107, 109, 103, 105, 102, 104] : List Int).Nodup := by
  constructor
  · have hrand : randintList 10 10 (MTState.seeded 0) =
        some ([5, 0, 3, 3, 7, 9, 3, 5, 2, 4], ⟨seedKey0T, 13⟩) := by
      rw [seeded_zero_eq]
      show drawMany 10 9 (genMask 9) ⟨seedKey0, mtLen⟩ = _
      rw [show genMask 9 = 15 from rfl]
      exact drawMany_after_seed0
    have hch : npChoice tenFrames 10 (MTState.seeded 0) =
        some ([105, 100, 103, 103, 107, 109, 103, 105, 102, 104],
          ⟨seedKey0T, 13⟩) := by
      unfold npChoice
      rw [show tenFrames.length = 10 from rfl, if_neg (by decide)]
      simp only [hrand]
      rfl
    rw [selectFrames_sample 10 0 tenFrames ⟨0, 0⟩ (by decide)]
    simp only [hch]
  · decide

end Plotting





